import Mathlib

/-!
Verification of the Cal.com API client layer (`app.py`).

The seven operations and the gateway helper `_make_cal_request` are embedded
shallowly.  JSON values are the inductive `Json`; Python `None` is `Json.null`
(JSON `null` decodes to `None`, and `dict.get` returns `None` for a missing
key, so the two coincide exactly as in the running program).  Dynamic Python
operations that can raise (`.get` on a non-dict, `.lower()` on `None`,
subscripting, iteration, `in`) are embedded in `Except PyErr`, so an operation
either returns its result value or the exception the program would raise.

The network is an oracle `net : Request → HttpOutcome` inside `Env`; each
operation returns, besides its result, the ordered list of gateway requests it
issued, which makes "no network call", "cancel before book" and
"book never invoked" directly statable.  Operations in the source return
`json.dumps(<payload>)`; since `json.dumps`/`json.loads` are mutually inverse
on these values, the embedding works with the payload itself (the composite
reschedule operation round-trips its sub-operations through
`json.loads(json.dumps(...))`, which is the identity here as in the program).
-/

inductive Json where
  | null : Json
  | bool : Bool → Json
  | num : Int → Json
  | str : String → Json
  | arr : List Json → Json
  | obj : List (String × Json) → Json

inductive PyErr where
  | attributeError : String → PyErr
  | typeError : String → PyErr
  | indexError : String → PyErr
  | keyError : String → PyErr
deriving DecidableEq

/-- Python type name of a decoded JSON value, used in exception messages. -/
def pyTypeName : Json → String
  | Json.null => "NoneType"
  | Json.bool _ => "bool"
  | Json.num _ => "int"
  | Json.str _ => "str"
  | Json.arr _ => "list"
  | Json.obj _ => "dict"

/-- Python truthiness of a decoded JSON value. -/
def truthy : Json → Bool
  | Json.null => false
  | Json.bool b => b
  | Json.num n => n != 0
  | Json.str s => s != ""
  | Json.arr xs => !xs.isEmpty
  | Json.obj fs => !fs.isEmpty

/-- Python `d.get(k)`: `None` when the key is absent; raises on a non-dict. -/
def pyGet (v : Json) (k : String) : Except PyErr Json :=
  match v with
  | Json.obj fs => Except.ok ((fs.lookup k).getD Json.null)
  | w => Except.error (PyErr.attributeError
      ("\x27" ++ pyTypeName w ++ "\x27 object has no attribute \x27get\x27"))

/-- Python `d.get(k, default)`: the default applies only when the key is absent. -/
def pyGetD (v : Json) (k : String) (d : Json) : Except PyErr Json :=
  match v with
  | Json.obj fs => Except.ok ((fs.lookup k).getD d)
  | w => Except.error (PyErr.attributeError
      ("\x27" ++ pyTypeName w ++ "\x27 object has no attribute \x27get\x27"))

/-- Whether the character list `sub` occurs at the start of `s`. -/
def charsStartWith : List Char → List Char → Bool
  | _, [] => true
  | [], _ :: _ => false
  | c :: cs, d :: ds => c == d && charsStartWith cs ds

/-- Whether the character list `sub` occurs anywhere inside `s`. -/
def charsHave : List Char → List Char → Bool
  | [], sub => sub.isEmpty
  | c :: cs, sub => charsStartWith (c :: cs) sub || charsHave cs sub

/-- Substring test, Python `sub in s` for strings. -/
def strContains (s sub : String) : Bool :=
  charsHave s.data sub.data

/-- Python `v == "s"` for a decoded JSON value against a string literal
(values of other types never compare equal to a string). -/
def jsonIsStr (v : Json) (s : String) : Bool :=
  match v with
  | Json.str t => t == s
  | _ => false

/-- Python `k in v`: key membership for dicts, element membership for lists,
substring for strings; raises `TypeError` otherwise. -/
def pyContains (v : Json) (k : String) : Except PyErr Bool :=
  match v with
  | Json.obj fs => Except.ok (fs.any (fun p => p.1 == k))
  | Json.arr xs => Except.ok (xs.any (fun x => jsonIsStr x k))
  | Json.str s => Except.ok (strContains s k)
  | w => Except.error (PyErr.typeError
      ("argument of type \x27" ++ pyTypeName w ++ "\x27 is not iterable"))

/-- Python `v[i]` for a non-negative index. -/
def pyIndex (v : Json) (i : Nat) : Except PyErr Json :=
  match v with
  | Json.arr xs =>
    match xs.get? i with
    | some x => Except.ok x
    | none => Except.error (PyErr.indexError "list index out of range")
  | Json.str s =>
    match s.data.get? i with
    | some c => Except.ok (Json.str (String.mk [c]))
    | none => Except.error (PyErr.indexError "string index out of range")
  | Json.obj _ => Except.error (PyErr.keyError (toString i))
  | w => Except.error (PyErr.typeError
      ("\x27" ++ pyTypeName w ++ "\x27 object is not subscriptable"))

/-- Python iteration over a decoded JSON value. -/
def pyIter (v : Json) : Except PyErr (List Json) :=
  match v with
  | Json.arr xs => Except.ok xs
  | Json.str s => Except.ok (s.data.map (fun c => Json.str (String.mk [c])))
  | Json.obj fs => Except.ok (fs.map (fun p => Json.str p.1))
  | w => Except.error (PyErr.typeError
      ("\x27" ++ pyTypeName w ++ "\x27 object is not iterable"))

/-- Python `s.lower()` on a string (character-wise, as for the ASCII data
these operations compare). -/
def strLower (s : String) : String := String.mk (s.data.map Char.toLower)

/-- Python `v.lower()`: defined on strings only. -/
def pyLowerJ (v : Json) : Except PyErr String :=
  match v with
  | Json.str s => Except.ok (strLower s)
  | w => Except.error (PyErr.attributeError
      ("\x27" ++ pyTypeName w ++ "\x27 object has no attribute \x27lower\x27"))

mutual

/-- Python `repr` of a decoded JSON value (as used by `str.format`/f-strings
on containers). -/
def pyRepr : Json → String
  | Json.null => "None"
  | Json.bool true => "True"
  | Json.bool false => "False"
  | Json.num n => toString n
  | Json.str s => "\x27" ++ s ++ "\x27"
  | Json.arr xs => "[" ++ pyReprList xs ++ "]"
  | Json.obj fs => "\x7b" ++ pyReprFields fs ++ "\x7d"

def pyReprList : List Json → String
  | [] => ""
  | [x] => pyRepr x
  | x :: y :: xs => pyRepr x ++ ", " ++ pyReprList (y :: xs)

def pyReprFields : List (String × Json) → String
  | [] => ""
  | [p] => "\x27" ++ p.1 ++ "\x27: " ++ pyRepr p.2
  | p :: q :: ps => "\x27" ++ p.1 ++ "\x27: " ++ pyRepr p.2 ++ ", " ++ pyReprFields (q :: ps)

end

/-- Python `str()` of a decoded JSON value, as interpolated by f-strings. -/
def pyStr : Json → String
  | Json.str s => s
  | v => pyRepr v

/-- Exception-propagating sequencing (Python statement order). -/
def pyBind {α β : Type} (x : Except PyErr α) (f : α → Except PyErr β) : Except PyErr β :=
  match x with
  | Except.error e => Except.error e
  | Except.ok a => f a

@[simp] theorem pyBind_ok {α β : Type} (a : α) (f : α → Except PyErr β) :
    pyBind (Except.ok a) f = f a := rfl

@[simp] theorem pyBind_error {α β : Type} (e : PyErr) (f : α → Except PyErr β) :
    pyBind (Except.error e) f = Except.error e := rfl

/-- Exception-propagating map over a list (a Python `for`/comprehension). -/
def pyMapM {α β : Type} (f : α → Except PyErr β) : List α → Except PyErr (List β)
  | [] => Except.ok []
  | x :: xs => pyBind (f x) (fun y => pyBind (pyMapM f xs) (fun ys => Except.ok (y :: ys)))

/-- Exception-propagating filter over a list (a Python accumulation loop). -/
def pyFilterM {α : Type} (p : α → Except PyErr Bool) : List α → Except PyErr (List α)
  | [] => Except.ok []
  | x :: xs => pyBind (p x)
      (fun b => pyBind (pyFilterM p xs) (fun ys => Except.ok (if b then x :: ys else ys)))

/-! ## The API Gateway Client -/

/-- An outbound HTTP request as issued by `_make_cal_request`: endpoint path,
method, final query parameters (credential attached), and optional JSON body. -/
structure Request where
  endpoint : String
  method : String
  params : List (String × String)
  body : Option Json

/-- What the remote side does with a request: a decoded JSON body (2xx other
than 204), an HTTP 204, an HTTP error status with body text (`raise_for_status`
path), or a transport-level failure (`RequestException` path). -/
inductive HttpOutcome where
  | json : Json → HttpOutcome
  | noContent : HttpOutcome
  | httpError : Int → String → HttpOutcome
  | requestError : String → HttpOutcome

/-- Ambient state of a run: the `CAL_API_KEY` environment value and the
behaviour of the remote service. -/
structure Env where
  apiKey : Option String
  net : Request → HttpOutcome

/-- Python falsiness of the environment-provided key (`if not api_key`):
unset, or set to the empty string. -/
def keyMissing : Option String → Bool
  | none => true
  | some s => s == ""

def keyVal : Option String → String
  | none => ""
  | some s => s

/-- The `{"error": msg}` envelope. -/
def errObj (m : String) : Json := Json.obj [("error", Json.str m)]

/-- How `_make_cal_request` normalizes the transport outcome into a JSON
value (lines 34-46 of `app.py`). -/
def normalizeOutcome : HttpOutcome → Json
  | HttpOutcome.json b => b
  | HttpOutcome.noContent =>
      Json.obj [("message", Json.str "Operation successful, no content returned.")]
  | HttpOutcome.httpError status text =>
      errObj ("HTTP error: " ++ toString status ++ " - " ++ text)
  | HttpOutcome.requestError d =>
      errObj ("Request error: " ++ d)

def calResponse (env : Env) (r : Request) : Json := normalizeOutcome (env.net r)

/-- The key-missing message used by `_make_cal_request` and six of the seven
operations. -/
def keyNotSetMsg : String := "Cal.com API Key is not set. Please set it in the Streamlit UI."

/-- The key-missing message used by `create_cal_event_type` only. -/
def keyNotSetEnvMsg : String :=
  "Cal.com API Key is not set in environment variables. Please set CAL_API_KEY in your .env file."

/-- Python `d[k] = v` on an insertion-ordered dict: an existing key keeps its
position and gets the new value, a new key is appended. -/
def dictSet : List (String × String) → String → String → List (String × String)
  | [], k, v => [(k, v)]
  | (k', v') :: rest, k, v =>
      if k' == k then (k, v) :: rest else (k', v') :: dictSet rest k v

/-- Gateway helper `_make_cal_request(endpoint, method, params, json_data)`.  Besides the
normalized response it returns the list of issued requests (empty when the
credential is absent) and the final state of the `params` dict — the source
executes `params['apiKey'] = api_key` on the caller-supplied dict in place, so
the third component is what the caller's dict holds after the call. -/
def _make_cal_request (env : Env) (endpoint method : String)
    (params : Option (List (String × String))) (json_data : Option Json) :
    Json × List Request × List (String × String) :=
  if keyMissing env.apiKey then (errObj keyNotSetMsg, [], params.getD [])
  else
    let p := dictSet (params.getD []) "apiKey" (keyVal env.apiKey)
    let req : Request := ⟨endpoint, method, p, json_data⟩
    (calResponse env req, [req], p)

/-! ## Date parsing (`datetime.strptime(s, "%Y-%m-%d")`) -/

def isLeapYear (y : Nat) : Bool := y % 4 == 0 && (y % 100 != 0 || y % 400 == 0)

def daysInMonth (y m : Nat) : Nat :=
  if m == 2 then (if isLeapYear y then 29 else 28)
  else if m == 4 || m == 6 || m == 9 || m == 11 then 30
  else 31

/-- Python `s.split("-")` on the character list (always at least one, possibly
empty, piece — as in Python). -/
def splitDash : List Char → List (List Char)
  | [] => [[]]
  | c :: cs =>
    match splitDash cs, c == '-' with
    | rest, true => [] :: rest
    | r :: rs, false => (c :: r) :: rs
    | [], false => [[c]]

def allDigits (cs : List Char) : Bool := !cs.isEmpty && cs.all (fun c => c.isDigit)

def digitsVal (cs : List Char) : Nat := cs.foldl (fun a c => a * 10 + (c.toNat - 48)) 0

/-- Python `datetime.strptime(s, "%Y-%m-%d").date()`: exactly four year digits, one
or two month/day digits, calendar-valid, year at least 1, nothing left over;
`none` is the `ValueError` path. -/
def parseYMD (s : String) : Option (Nat × Nat × Nat) :=
  match splitDash s.data with
  | [ys, ms, ds] =>
    if ys.length = 4 ∧ allDigits ys = true ∧ allDigits ms = true ∧ ms.length ≤ 2
        ∧ allDigits ds = true ∧ ds.length ≤ 2 then
      let y := digitsVal ys
      let m := digitsVal ms
      let d := digitsVal ds
      if 1 ≤ y ∧ 1 ≤ m ∧ m ≤ 12 ∧ 1 ≤ d ∧ d ≤ daysInMonth y m then some (y, m, d)
      else none
    else none
  | _ => none

def pad2 (n : Nat) : String := if n < 10 then "0" ++ toString n else toString n

def pad4 (n : Nat) : String :=
  if n < 10 then "000" ++ toString n
  else if n < 100 then "00" ++ toString n
  else if n < 1000 then "0" ++ toString n
  else toString n

/-- Python `date.isoformat()`. -/
def dateIso (ymd : Nat × Nat × Nat) : String :=
  pad4 ymd.1 ++ "-" ++ pad2 ymd.2.1 ++ "-" ++ pad2 ymd.2.2

/-! ## The Operation Layer

Each operation returns the JSON payload it passes to `json.dumps`, together
with the ordered list of gateway requests it issued, or the Python exception
it would raise. -/

/-- One entry of the `list_event_types` summary comprehension. -/
def summarizeEventType (et : Json) : Except PyErr Json :=
  pyBind (pyGet et "id") fun i =>
  pyBind (pyGet et "title") fun t =>
  pyBind (pyGet et "slug") fun sl =>
  Except.ok (Json.obj [("id", i), ("title", t), ("slug", sl)])

def list_event_types (env : Env) : Except PyErr (Json × List Request) :=
  if keyMissing env.apiKey then Except.ok (errObj keyNotSetMsg, [])
  else
    let r := _make_cal_request env "event-types" "GET" none none
    pyBind (pyContains r.1 "error") fun hasErr =>
    if hasErr then Except.ok (r.1, r.2.1)
    else
      pyBind (pyGetD r.1 "eventTypes" (Json.arr [])) fun ets =>
      pyBind (pyIter ets) fun l =>
      pyBind (pyMapM summarizeEventType l) fun summ =>
      Except.ok (Json.obj [("eventTypes", Json.arr summ)], r.2.1)

def invalidDateMsg : String :=
  "Invalid date format for start_date_str or end_date_str. Please use YYYY-MM-DD."

def get_available_slots (env : Env)
    (event_type_slug start_date_str end_date_str : String) :
    Except PyErr (Json × List Request) :=
  if keyMissing env.apiKey then Except.ok (errObj keyNotSetMsg, [])
  else
    match parseYMD start_date_str, parseYMD end_date_str with
    | some sd, some ed =>
      let params := [("eventType", event_type_slug),
                     ("startDate", dateIso sd), ("endDate", dateIso ed)]
      let r := _make_cal_request env "slots" "GET" (some params) none
      Except.ok (r.1, r.2.1)
    | _, _ => Except.ok (errObj invalidDateMsg, [])

/-- The POST body built by `book_cal_event`.  The attendee/title fields are
`Json` because `reschedule_cal_event` passes values extracted from a fetched
booking straight through (Python does not coerce them to `str`). -/
def bookPayload (event_type_id : Json) (start_time_iso end_time_iso : String)
    (email name title description : Json) : Json :=
  Json.obj [("eventTypeId", event_type_id),
    ("start", Json.str start_time_iso),
    ("end", Json.str end_time_iso),
    ("timeZone", Json.str "America/Los_Angeles"),
    ("responses", Json.obj [("email", email), ("name", name),
      ("metadata", Json.obj []), ("location", Json.str "integrations:cal")]),
    ("metadata", Json.obj [("title", title), ("description", description)]),
    ("language", Json.str "en")]

def book_cal_event (env : Env) (event_type_id : Json)
    (start_time_iso end_time_iso : String)
    (email name title description : Json) : Except PyErr (Json × List Request) :=
  if keyMissing env.apiKey then Except.ok (errObj keyNotSetMsg, [])
  else
    let r := _make_cal_request env "bookings" "POST" none
      (some (bookPayload event_type_id start_time_iso end_time_iso email name title description))
    Except.ok (r.1, r.2.1)

/-- Inner loop of the `list_cal_events` filter: does some attendee's email
match case-insensitively (`attendee.get("email", "").lower() == email.lower()`),
with the Python `break` on first match. -/
def attendeeMatches (email : String) : List Json → Except PyErr Bool
  | [] => Except.ok false
  | a :: rest =>
    pyBind (pyGetD a "email" (Json.str "")) fun ev =>
    pyBind (pyLowerJ ev) fun lv =>
    if lv == strLower email then Except.ok true else attendeeMatches email rest

def bookingMatches (email : String) (b : Json) : Except PyErr Bool :=
  pyBind (pyGetD b "attendees" (Json.arr [])) fun av =>
  pyBind (pyIter av) fun atts =>
  attendeeMatches email atts

/-- One iteration of the `list_cal_events` summarization loop. -/
def summarizeBooking (b : Json) : Except PyErr Json :=
  pyBind (pyGet b "startTime") fun st =>
  pyBind (pyGet b "endTime") fun et =>
  pyBind (pyGet b "title") fun t =>
  pyBind (pyGet b "description") fun d =>
  pyBind (pyGet b "id") fun i =>
  pyBind (pyGetD b "attendees" (Json.arr [])) fun av =>
  pyBind (pyIter av) fun atts =>
  pyBind (pyMapM (fun a => pyGet a "email") atts) fun emails =>
  Except.ok (Json.obj [("id", i), ("title", t), ("description", d),
    ("startTime", st), ("endTime", et),
    ("attendees", Json.arr (emails.filter truthy))])

def list_cal_events (env : Env) (email : Option String) :
    Except PyErr (Json × List Request) :=
  if keyMissing env.apiKey then Except.ok (errObj keyNotSetMsg, [])
  else
    let r := _make_cal_request env "bookings" "GET" none none
    pyBind (pyContains r.1 "error") fun hasErr =>
    if hasErr then Except.ok (r.1, r.2.1)
    else
      pyBind (pyGetD r.1 "bookings" (Json.arr [])) fun bv =>
      pyBind (pyIter bv) fun bookings =>
      pyBind (match email with
        | some e => if e ≠ "" then pyFilterM (bookingMatches e) bookings else Except.ok bookings
        | none => Except.ok bookings) fun filtered =>
      pyBind (pyMapM summarizeBooking filtered) fun summarized =>
      Except.ok (Json.obj [("bookings", Json.arr summarized)], r.2.1)

def cancel_cal_event (env : Env) (booking_id : Int) :
    Except PyErr (Json × List Request) :=
  if keyMissing env.apiKey then Except.ok (errObj keyNotSetMsg, [])
  else
    let r := _make_cal_request env ("bookings/" ++ toString booking_id) "DELETE" none none
    pyBind (pyContains r.1 "error") fun hasErr =>
    if hasErr then Except.ok (r.1, r.2.1)
    else Except.ok (Json.obj [("status", Json.str "success"),
      ("message", Json.str ("Event with ID " ++ toString booking_id ++ " cancelled successfully."))],
      r.2.1)

def missingInfoMsg : String :=
  "Missing crucial information (event type ID, attendee email, or attendee name) from original booking to reschedule."

def couldNotFetchMsg (booking_id : Int) : String :=
  "Could not fetch full details for event with ID " ++ toString booking_id ++ " for rescheduling."

/-- Composite `reschedule_cal_event`: fetch the booking, extract crucial fields, cancel
via `cancel_cal_event`, re-book via `book_cal_event` (the source round-trips
the sub-operation results through `json.loads(json.dumps(...))`, the identity
on these values). -/
def reschedule_cal_event (env : Env) (booking_id : Int)
    (new_start_time_iso new_end_time_iso : String) :
    Except PyErr (Json × List Request) :=
  if keyMissing env.apiKey then Except.ok (errObj keyNotSetMsg, [])
  else
    let r := _make_cal_request env ("bookings/" ++ toString booking_id) "GET" none none
    pyBind (pyContains r.1 "error") fun hasErr =>
    if hasErr then Except.ok (errObj (couldNotFetchMsg booking_id), r.2.1)
    else
      pyBind (pyGet r.1 "booking") fun bv =>
      if !truthy bv then Except.ok (errObj (couldNotFetchMsg booking_id), r.2.1)
      else
        pyBind (pyGet bv "eventTypeId") fun event_type_id =>
        pyBind (pyGet bv "attendees") fun atts1 =>
        pyBind (if truthy atts1 then
            pyBind (pyIndex atts1 0) (fun a0 => pyGet a0 "email")
          else Except.ok Json.null) fun attendee_email =>
        pyBind (pyGet bv "attendees") fun atts2 =>
        pyBind (if truthy atts2 then
            pyBind (pyIndex atts2 0) (fun a0 => pyGet a0 "name")
          else Except.ok Json.null) fun attendee_name =>
        if !truthy event_type_id || !truthy attendee_email || !truthy attendee_name then
          Except.ok (errObj missingInfoMsg, r.2.1)
        else
          pyBind (pyGet bv "title") fun title =>
          pyBind (pyGetD bv "description" (Json.str "")) fun description =>
          pyBind (cancel_cal_event env booking_id) fun cr =>
          pyBind (pyGet cr.1 "status") fun sv =>
          if !jsonIsStr sv "success" then
            pyBind (pyGetD cr.1 "message" (Json.str "Unknown error")) fun mv =>
            Except.ok (errObj ("Failed to cancel old event with ID " ++ toString booking_id
              ++ " during reschedule: " ++ pyStr mv), r.2.1 ++ cr.2)
          else
            pyBind (book_cal_event env event_type_id new_start_time_iso new_end_time_iso
              attendee_email attendee_name title description) fun br =>
            pyBind (pyContains br.1 "error") fun bookErr =>
            if bookErr then
              pyBind (pyGetD br.1 "error" (Json.str "Unknown error")) fun ev =>
              Except.ok (errObj ("Event cancelled, but failed to book new event during reschedule: "
                ++ pyStr ev ++ ". Please try booking a new event manually."), r.2.1 ++ cr.2 ++ br.2)
            else
              Except.ok (Json.obj [("status", Json.str "success"),
                ("message", Json.str ("Event " ++ toString booking_id ++ " successfully rescheduled.")),
                ("new_booking", br.1)], r.2.1 ++ cr.2 ++ br.2)

def create_cal_event_type (env : Env) (title slug : String) (length : Int)
    (description : String) (hidden : Bool) : Except PyErr (Json × List Request) :=
  if keyMissing env.apiKey then Except.ok (errObj keyNotSetEnvMsg, [])
  else
    let payload := Json.obj [("title", Json.str title), ("slug", Json.str slug),
      ("length", Json.num length), ("description", Json.str description),
      ("hidden", Json.bool hidden)]
    let r := _make_cal_request env "event-types" "POST" none (some payload)
    Except.ok (r.1, r.2.1)

/-! ## Spec-side definitions (refinement targets for the list-bookings claim)

These follow the spec's words ("bookings having some attendee whose email
equals the argument case-insensitively", "project each booking to
{id, title, description, startTime, endTime, attendees: [emails]}"),
to be compared with the source-derived `list_cal_events`. -/

/-- Total field lookup on a JSON object (absent or non-object gives `null`). -/
def tGet (v : Json) (k : String) : Json :=
  match v with
  | Json.obj fs => (fs.lookup k).getD Json.null
  | _ => Json.null

def asArr : Json → List Json
  | Json.arr xs => xs
  | _ => []

/-- Spec words: this attendee's email equals the argument case-insensitively. -/
def specAttendeeMatch (email : String) (a : Json) : Bool :=
  match tGet a "email" with
  | Json.str s => strLower s == strLower email
  | _ => false

/-- Spec words: the booking has some attendee whose email matches. -/
def specMatches (email : String) (b : Json) : Bool :=
  (asArr (tGet b "attendees")).any (specAttendeeMatch email)

/-- Spec words: projection to {id, title, description, startTime, endTime,
attendees: [emails]}. -/
def specSummarize (b : Json) : Json :=
  Json.obj [("id", tGet b "id"), ("title", tGet b "title"),
    ("description", tGet b "description"), ("startTime", tGet b "startTime"),
    ("endTime", tGet b "endTime"),
    ("attendees", Json.arr ((asArr (tGet b "attendees")).map (fun a => tGet a "email")))]

/-- Amended selection: a non-empty email filters; no email — or the empty
string, which the source's `if email:` treats the same — keeps everything. -/
def specSelect (email : Option String) (bs : List Json) : List Json :=
  match email with
  | none => bs
  | some e => if e = "" then bs else bs.filter (specMatches e)

/-- Well-formed attendee for the list-bookings claim: an object carrying a
non-empty string email (the spec's data model gives every attendee an email). -/
def wfAttendee (a : Json) : Bool :=
  match a with
  | Json.obj fs =>
    match fs.lookup "email" with
    | some (Json.str s) => s != ""
    | _ => false
  | _ => false

/-- Well-formed booking: an object whose `attendees`, when present, is a list
of well-formed attendees. -/
def wfBooking (b : Json) : Bool :=
  match b with
  | Json.obj fs =>
    match fs.lookup "attendees" with
    | some (Json.arr as) => as.all wfAttendee
    | none => true
    | some _ => false
  | _ => false

/-! ## String helper lemmas -/

theorem strData_append (s t : String) : (s ++ t).data = s.data ++ t.data := by
  cases s; cases t; rfl

theorem ne_of_head {s t : String} (h : s.data.head? ≠ t.data.head?) : s ≠ t :=
  fun e => h (congrArg (fun u => u.data.head?) e)

theorem head_append {s : String} (t : String) {c : Char} (h : s.data.head? = some c) :
    (s ++ t).data.head? = some c := by
  rw [strData_append]
  cases hs : s.data with
  | nil => rw [hs] at h; cases h
  | cons a as =>
    rw [hs] at h
    simp only [List.head?] at h
    simp [List.cons_append, List.head?, h]

/-! ## Claim C3: reschedule terminates on fetch failure without mutating -/

/-- C3: if the initial fetch of the booking returns an error envelope, or a
response whose `booking` entry is absent or falsy, reschedule returns the
error envelope whose text contains "Could not fetch full details for event
with ID <id>", and the only gateway request issued is the fetch GET — the
Cancel (DELETE) and Book (POST) operations are never invoked. -/
theorem c3_reschedule_fetch_failure
    (env : Env) (k : String) (booking_id : Int) (ns ne : String) (fRes : Json)
    (hk : env.apiKey = some k) (hk0 : k ≠ "")
    (hf : calResponse env ⟨"bookings/" ++ toString booking_id, "GET", [("apiKey", k)], none⟩ = fRes)
    (h : pyContains fRes "error" = Except.ok true ∨
         (pyContains fRes "error" = Except.ok false ∧
          ∃ bv, pyGet fRes "booking" = Except.ok bv ∧ truthy bv = false)) :
    reschedule_cal_event env booking_id ns ne =
      Except.ok (errObj (couldNotFetchMsg booking_id),
        [⟨"bookings/" ++ toString booking_id, "GET", [("apiKey", k)], none⟩]) ∧
    (∃ tail, couldNotFetchMsg booking_id =
      ("Could not fetch full details for event with ID " ++ toString booking_id) ++ tail) := by
  have hkm : keyMissing (some k) = false := beq_eq_false_iff_ne.mpr hk0
  constructor
  · rcases h with h1 | ⟨h1, bv, h2, h3⟩
    · simp [reschedule_cal_event, _make_cal_request, hk, hkm, keyVal, dictSet, hf, h1]
    · simp [reschedule_cal_event, _make_cal_request, hk, hkm, keyVal, dictSet, hf, h1, h2, h3]
  · exact ⟨" for rescheduling.", rfl⟩

/-- Demo environment for the C3 witness: booking 99 fetches as an HTTP 404. -/
def envC3 : Env :=
  ⟨some "k", fun _ => HttpOutcome.httpError 404 "booking not found"⟩

theorem c3_reschedule_fetch_failure_witness :
    reschedule_cal_event envC3 99 "2024-06-15T10:00:00Z" "2024-06-15T11:00:00Z" =
      Except.ok (errObj (couldNotFetchMsg 99),
        [⟨"bookings/99", "GET", [("apiKey", "k")], none⟩]) :=
  (c3_reschedule_fetch_failure envC3 "k" 99 "2024-06-15T10:00:00Z" "2024-06-15T11:00:00Z"
    (errObj "HTTP error: 404 - booking not found") rfl (by decide) rfl
    (Or.inl rfl)).1

/-! ## Claim C1: successful reschedule cancels, then books, and returns the
new booking -/

/-- C1: when fetch succeeds with a truthy booking, extraction yields truthy
event type id, attendee email and name, the cancel DELETE returns no error
envelope, and the book POST returns no error envelope, then reschedule issues
exactly the fetch GET, then the cancel DELETE on the original booking id,
then the book POST whose payload holds the extracted event type id, first
attendee's email and name, title, description and the new start/end times —
cancel strictly before book — and returns the success envelope whose
`new_booking` field is exactly the book call's result. -/
theorem c1_reschedule_success_cancel_before_book
    (env : Env) (k : String) (booking_id : Int) (ns ne : String)
    (fRes b etid atts a0 em nm ti de cRes nbRes : Json)
    (hk : env.apiKey = some k) (hk0 : k ≠ "")
    (hf : calResponse env ⟨"bookings/" ++ toString booking_id, "GET", [("apiKey", k)], none⟩ = fRes)
    (hfe : pyContains fRes "error" = Except.ok false)
    (hfb : pyGet fRes "booking" = Except.ok b) (hbt : truthy b = true)
    (hety : pyGet b "eventTypeId" = Except.ok etid) (hetyT : truthy etid = true)
    (hatts : pyGet b "attendees" = Except.ok atts) (hattsT : truthy atts = true)
    (ha0 : pyIndex atts 0 = Except.ok a0)
    (hem : pyGet a0 "email" = Except.ok em) (hemT : truthy em = true)
    (hnm : pyGet a0 "name" = Except.ok nm) (hnmT : truthy nm = true)
    (hti : pyGet b "title" = Except.ok ti)
    (hde : pyGetD b "description" (Json.str "") = Except.ok de)
    (hc : calResponse env ⟨"bookings/" ++ toString booking_id, "DELETE", [("apiKey", k)], none⟩ = cRes)
    (hce : pyContains cRes "error" = Except.ok false)
    (hbook : calResponse env ⟨"bookings", "POST", [("apiKey", k)],
        some (bookPayload etid ns ne em nm ti de)⟩ = nbRes)
    (hbe : pyContains nbRes "error" = Except.ok false) :
    reschedule_cal_event env booking_id ns ne =
      Except.ok (Json.obj [("status", Json.str "success"),
        ("message", Json.str ("Event " ++ toString booking_id ++ " successfully rescheduled.")),
        ("new_booking", nbRes)],
        [⟨"bookings/" ++ toString booking_id, "GET", [("apiKey", k)], none⟩,
         ⟨"bookings/" ++ toString booking_id, "DELETE", [("apiKey", k)], none⟩,
         ⟨"bookings", "POST", [("apiKey", k)], some (bookPayload etid ns ne em nm ti de)⟩]) := by
  have hkm : keyMissing (some k) = false := beq_eq_false_iff_ne.mpr hk0
  have hstat : pyGet (Json.obj [("status", Json.str "success"),
      ("message", Json.str ("Event with ID " ++ toString booking_id ++ " cancelled successfully."))])
      "status" = Except.ok (Json.str "success") := rfl
  have hsucc : jsonIsStr (Json.str "success") "success" = true := rfl
  simp [reschedule_cal_event, cancel_cal_event, book_cal_event, _make_cal_request,
    hk, hkm, keyVal, dictSet, hf, hfe, hfb, hbt, hety, hetyT, hatts, hattsT, ha0,
    hem, hemT, hnm, hnmT, hti, hde, hc, hce, hbook, hbe, hstat, hsucc]

/-- Booking 42 as the remote returns it: event type `5`, attendee
`a@b.com`/`Alice`, title `"Sync"`, no description. -/
def demoBooking : Json := Json.obj [("eventTypeId", Json.num 5),
  ("attendees", Json.arr [Json.obj [("email", Json.str "a@b.com"), ("name", Json.str "Alice")]]),
  ("title", Json.str "Sync")]

def newBookingC1 : Json := Json.obj [("id", Json.num 101), ("title", Json.str "Sync")]

def envC1 : Env := ⟨some "k", fun r =>
  if r.method == "GET" then HttpOutcome.json (Json.obj [("booking", demoBooking)])
  else if r.method == "DELETE" then HttpOutcome.noContent
  else HttpOutcome.json newBookingC1⟩

theorem c1_reschedule_success_cancel_before_book_witness :
    reschedule_cal_event envC1 42 "2024-06-16T10:00:00Z" "2024-06-16T11:00:00Z" =
      Except.ok (Json.obj [("status", Json.str "success"),
        ("message", Json.str ("Event " ++ toString (42 : Int) ++ " successfully rescheduled.")),
        ("new_booking", newBookingC1)],
        [⟨"bookings/" ++ toString (42 : Int), "GET", [("apiKey", "k")], none⟩,
         ⟨"bookings/" ++ toString (42 : Int), "DELETE", [("apiKey", "k")], none⟩,
         ⟨"bookings", "POST", [("apiKey", "k")],
          some (bookPayload (Json.num 5) "2024-06-16T10:00:00Z" "2024-06-16T11:00:00Z"
            (Json.str "a@b.com") (Json.str "Alice") (Json.str "Sync") (Json.str ""))⟩]) :=
  c1_reschedule_success_cancel_before_book envC1 "k" 42
    "2024-06-16T10:00:00Z" "2024-06-16T11:00:00Z"
    (Json.obj [("booking", demoBooking)]) demoBooking (Json.num 5)
    (Json.arr [Json.obj [("email", Json.str "a@b.com"), ("name", Json.str "Alice")]])
    (Json.obj [("email", Json.str "a@b.com"), ("name", Json.str "Alice")])
    (Json.str "a@b.com") (Json.str "Alice") (Json.str "Sync") (Json.str "")
    (Json.obj [("message", Json.str "Operation successful, no content returned.")])
    newBookingC1
    rfl (by decide) rfl rfl rfl rfl rfl rfl rfl rfl rfl rfl rfl rfl rfl rfl rfl rfl rfl rfl rfl

/-! ## Claim C2: book failure after a successful cancel is surfaced distinctly -/

/-- C2: when fetch and extraction succeed, the cancel DELETE reports no error,
but the book POST returns an error envelope, reschedule returns the error
envelope "Event cancelled, but failed to book new event during reschedule:
<detail>. Please try booking a new event manually." — which states that the
old event is already cancelled, that the new booking failed, and instructs
manual recovery — and this message differs from every error reschedule can
produce before the cancel step (the key-missing message, the could-not-fetch
message for any id, and the missing-information message).  The trace shows
cancel invoked exactly once and book exactly once. -/
theorem c2_reschedule_book_failure_distinct
    (env : Env) (k : String) (booking_id : Int) (ns ne : String)
    (fRes b etid atts a0 em nm ti de nbRes dv : Json)
    (hk : env.apiKey = some k) (hk0 : k ≠ "")
    (hf : calResponse env ⟨"bookings/" ++ toString booking_id, "GET", [("apiKey", k)], none⟩ = fRes)
    (hfe : pyContains fRes "error" = Except.ok false)
    (hfb : pyGet fRes "booking" = Except.ok b) (hbt : truthy b = true)
    (hety : pyGet b "eventTypeId" = Except.ok etid) (hetyT : truthy etid = true)
    (hatts : pyGet b "attendees" = Except.ok atts) (hattsT : truthy atts = true)
    (ha0 : pyIndex atts 0 = Except.ok a0)
    (hem : pyGet a0 "email" = Except.ok em) (hemT : truthy em = true)
    (hnm : pyGet a0 "name" = Except.ok nm) (hnmT : truthy nm = true)
    (hti : pyGet b "title" = Except.ok ti)
    (hde : pyGetD b "description" (Json.str "") = Except.ok de)
    (hc : calResponse env ⟨"bookings/" ++ toString booking_id, "DELETE", [("apiKey", k)], none⟩ = cRes)
    (hce : pyContains cRes "error" = Except.ok false)
    (hbook : calResponse env ⟨"bookings", "POST", [("apiKey", k)],
        some (bookPayload etid ns ne em nm ti de)⟩ = nbRes)
    (hbe : pyContains nbRes "error" = Except.ok true)
    (hbd : pyGetD nbRes "error" (Json.str "Unknown error") = Except.ok dv) :
    reschedule_cal_event env booking_id ns ne =
      Except.ok (errObj ("Event cancelled, but failed to book new event during reschedule: "
          ++ pyStr dv ++ ". Please try booking a new event manually."),
        [⟨"bookings/" ++ toString booking_id, "GET", [("apiKey", k)], none⟩,
         ⟨"bookings/" ++ toString booking_id, "DELETE", [("apiKey", k)], none⟩,
         ⟨"bookings", "POST", [("apiKey", k)], some (bookPayload etid ns ne em nm ti de)⟩]) ∧
    ("Event cancelled, but failed to book new event during reschedule: "
        ++ pyStr dv ++ ". Please try booking a new event manually.") ≠ keyNotSetMsg ∧
    (∀ id2 : Int, ("Event cancelled, but failed to book new event during reschedule: "
        ++ pyStr dv ++ ". Please try booking a new event manually.") ≠ couldNotFetchMsg id2) ∧
    ("Event cancelled, but failed to book new event during reschedule: "
        ++ pyStr dv ++ ". Please try booking a new event manually.") ≠ missingInfoMsg := by
  have hkm : keyMissing (some k) = false := beq_eq_false_iff_ne.mpr hk0
  have hstat : pyGet (Json.obj [("status", Json.str "success"),
      ("message", Json.str ("Event with ID " ++ toString booking_id ++ " cancelled successfully."))])
      "status" = Except.ok (Json.str "success") := rfl
  have hsucc : jsonIsStr (Json.str "success") "success" = true := rfl
  have hEhead : ("Event cancelled, but failed to book new event during reschedule: "
      ++ pyStr dv ++ ". Please try booking a new event manually.").data.head? = some 'E' :=
    head_append _ (head_append _ (by decide))
  refine ⟨?_, ?_, ?_, ?_⟩
  · simp [reschedule_cal_event, cancel_cal_event, book_cal_event, _make_cal_request,
      hk, hkm, keyVal, dictSet, hf, hfe, hfb, hbt, hety, hetyT, hatts, hattsT, ha0,
      hem, hemT, hnm, hnmT, hti, hde, hc, hce, hbook, hbe, hbd, hstat, hsucc]
  · exact ne_of_head (by rw [hEhead]; decide)
  · intro id2
    have hChead : (couldNotFetchMsg id2).data.head? = some 'C' := by
      simp only [couldNotFetchMsg]
      exact head_append _ (head_append _ (by decide))
    exact ne_of_head (by rw [hEhead, hChead]; decide)
  · exact ne_of_head (by rw [hEhead]; decide)

def envC2 : Env := ⟨some "k", fun r =>
  if r.method == "GET" then HttpOutcome.json (Json.obj [("booking", demoBooking)])
  else if r.method == "DELETE" then HttpOutcome.noContent
  else HttpOutcome.httpError 500 "no_available_users_found_error"⟩

theorem c2_reschedule_book_failure_distinct_witness :
    reschedule_cal_event envC2 42 "2024-06-16T10:00:00Z" "2024-06-16T11:00:00Z" =
      Except.ok (errObj ("Event cancelled, but failed to book new event during reschedule: "
          ++ pyStr (Json.str "HTTP error: 500 - no_available_users_found_error")
          ++ ". Please try booking a new event manually."),
        [⟨"bookings/" ++ toString (42 : Int), "GET", [("apiKey", "k")], none⟩,
         ⟨"bookings/" ++ toString (42 : Int), "DELETE", [("apiKey", "k")], none⟩,
         ⟨"bookings", "POST", [("apiKey", "k")],
          some (bookPayload (Json.num 5) "2024-06-16T10:00:00Z" "2024-06-16T11:00:00Z"
            (Json.str "a@b.com") (Json.str "Alice") (Json.str "Sync") (Json.str ""))⟩]) :=
  (c2_reschedule_book_failure_distinct envC2 "k" 42
    "2024-06-16T10:00:00Z" "2024-06-16T11:00:00Z"
    (Json.obj [("booking", demoBooking)]) demoBooking (Json.num 5)
    (Json.arr [Json.obj [("email", Json.str "a@b.com"), ("name", Json.str "Alice")]])
    (Json.obj [("email", Json.str "a@b.com"), ("name", Json.str "Alice")])
    (Json.str "a@b.com") (Json.str "Alice") (Json.str "Sync") (Json.str "")
    (errObj "HTTP error: 500 - no_available_users_found_error")
    (Json.str "HTTP error: 500 - no_available_users_found_error")
    rfl (by decide) rfl rfl rfl rfl rfl rfl rfl rfl rfl rfl rfl rfl rfl rfl rfl rfl rfl rfl rfl rfl).1

/-! ## Claim C4: cancel failure aborts the reschedule — but the surfaced
detail is the placeholder, not what Cancel reported -/

def envC4 : Env := ⟨some "k", fun r =>
  if r.method == "GET" then HttpOutcome.json (Json.obj [("booking", demoBooking)])
  else if r.method == "DELETE" then HttpOutcome.httpError 500 "boom"
  else HttpOutcome.requestError "unreachable"⟩

/-- C4 counterexample: the Cancel operation reports the detail
"HTTP error: 500 - boom", but the reschedule error envelope reads
"... during reschedule: Unknown error" — the claim's "including the detail
reported by the Cancel operation" fails, because the source reads the
`message` key of the cancel result while failed cancels carry only `error`.
The trace confirms Book was never invoked. -/
theorem c4_counterexample :
    reschedule_cal_event envC4 42 "2024-06-16T10:00:00Z" "2024-06-16T11:00:00Z" =
      Except.ok (errObj "Failed to cancel old event with ID 42 during reschedule: Unknown error",
        [⟨"bookings/42", "GET", [("apiKey", "k")], none⟩,
         ⟨"bookings/42", "DELETE", [("apiKey", "k")], none⟩]) ∧
    cancel_cal_event envC4 42 =
      Except.ok (errObj "HTTP error: 500 - boom",
        [⟨"bookings/42", "DELETE", [("apiKey", "k")], none⟩]) ∧
    strContains "Failed to cancel old event with ID 42 during reschedule: Unknown error"
      "boom" = false ∧
    strContains "Failed to cancel old event with ID 42 during reschedule: Unknown error"
      "HTTP error: 500 - boom" = false := by
  exact ⟨rfl, rfl, rfl, rfl⟩

/-- C4 amended: when fetch and extraction succeed but the cancel DELETE
returns an error envelope (so the Cancel operation does not report status
"success"), reschedule returns an error envelope naming the booking id and
carrying the cancel result's `message` field with default "Unknown error" —
which is the placeholder actually surfaced, since failed cancels carry
`error` rather than `message` — and the Book operation is never invoked
(the trace is exactly the fetch GET and the cancel DELETE). -/
theorem c4_cancel_failure_aborts
    (env : Env) (k : String) (booking_id : Int) (ns ne : String)
    (fRes b etid atts a0 em nm ti de cRes sv mv : Json)
    (hk : env.apiKey = some k) (hk0 : k ≠ "")
    (hf : calResponse env ⟨"bookings/" ++ toString booking_id, "GET", [("apiKey", k)], none⟩ = fRes)
    (hfe : pyContains fRes "error" = Except.ok false)
    (hfb : pyGet fRes "booking" = Except.ok b) (hbt : truthy b = true)
    (hety : pyGet b "eventTypeId" = Except.ok etid) (hetyT : truthy etid = true)
    (hatts : pyGet b "attendees" = Except.ok atts) (hattsT : truthy atts = true)
    (ha0 : pyIndex atts 0 = Except.ok a0)
    (hem : pyGet a0 "email" = Except.ok em) (hemT : truthy em = true)
    (hnm : pyGet a0 "name" = Except.ok nm) (hnmT : truthy nm = true)
    (hti : pyGet b "title" = Except.ok ti)
    (hde : pyGetD b "description" (Json.str "") = Except.ok de)
    (hc : calResponse env ⟨"bookings/" ++ toString booking_id, "DELETE", [("apiKey", k)], none⟩ = cRes)
    (hce : pyContains cRes "error" = Except.ok true)
    (hcs : pyGet cRes "status" = Except.ok sv)
    (hsv : jsonIsStr sv "success" = false)
    (hcm : pyGetD cRes "message" (Json.str "Unknown error") = Except.ok mv) :
    reschedule_cal_event env booking_id ns ne =
      Except.ok (errObj ("Failed to cancel old event with ID " ++ toString booking_id
          ++ " during reschedule: " ++ pyStr mv),
        [⟨"bookings/" ++ toString booking_id, "GET", [("apiKey", k)], none⟩,
         ⟨"bookings/" ++ toString booking_id, "DELETE", [("apiKey", k)], none⟩]) := by
  have hkm : keyMissing (some k) = false := beq_eq_false_iff_ne.mpr hk0
  simp [reschedule_cal_event, cancel_cal_event, _make_cal_request,
    hk, hkm, keyVal, dictSet, hf, hfe, hfb, hbt, hety, hetyT, hatts, hattsT, ha0,
    hem, hemT, hnm, hnmT, hti, hde, hc, hce, hcs, hsv, hcm]

theorem c4_cancel_failure_aborts_witness :
    reschedule_cal_event envC4 42 "2024-06-16T10:00:00Z" "2024-06-16T11:00:00Z" =
      Except.ok (errObj ("Failed to cancel old event with ID " ++ toString (42 : Int)
          ++ " during reschedule: " ++ pyStr (Json.str "Unknown error")),
        [⟨"bookings/" ++ toString (42 : Int), "GET", [("apiKey", "k")], none⟩,
         ⟨"bookings/" ++ toString (42 : Int), "DELETE", [("apiKey", "k")], none⟩]) :=
  c4_cancel_failure_aborts envC4 "k" 42 "2024-06-16T10:00:00Z" "2024-06-16T11:00:00Z"
    (Json.obj [("booking", demoBooking)]) demoBooking (Json.num 5)
    (Json.arr [Json.obj [("email", Json.str "a@b.com"), ("name", Json.str "Alice")]])
    (Json.obj [("email", Json.str "a@b.com"), ("name", Json.str "Alice")])
    (Json.str "a@b.com") (Json.str "Alice") (Json.str "Sync") (Json.str "")
    (errObj "HTTP error: 500 - boom") Json.null (Json.str "Unknown error")
    rfl (by decide) rfl rfl rfl rfl rfl rfl rfl rfl rfl rfl rfl rfl rfl rfl rfl rfl rfl rfl rfl rfl

/-! ## Claim C10: a fetched booking with eventTypeId 0 is treated as missing
crucial information (falsiness test, not key absence) -/

/-- C10: if the fetch succeeds with a truthy booking whose `eventTypeId` key
is present and holds the well-formed integer id `0`, and whose first
attendee's email and name are present and truthy, reschedule still terminates
with the missing-information error before any Cancel or Book call — because
the source tests `not event_type_id`, i.e. Python falsiness, not key
absence.  The trace holds only the fetch GET. -/
theorem c10_event_type_id_zero_missing_info
    (env : Env) (k : String) (booking_id : Int) (ns ne : String)
    (fRes b atts a0 em nm : Json)
    (hk : env.apiKey = some k) (hk0 : k ≠ "")
    (hf : calResponse env ⟨"bookings/" ++ toString booking_id, "GET", [("apiKey", k)], none⟩ = fRes)
    (hfe : pyContains fRes "error" = Except.ok false)
    (hfb : pyGet fRes "booking" = Except.ok b) (hbt : truthy b = true)
    (hety : pyGet b "eventTypeId" = Except.ok (Json.num 0))
    (hatts : pyGet b "attendees" = Except.ok atts) (hattsT : truthy atts = true)
    (ha0 : pyIndex atts 0 = Except.ok a0)
    (hem : pyGet a0 "email" = Except.ok em) (hemT : truthy em = true)
    (hnm : pyGet a0 "name" = Except.ok nm) (hnmT : truthy nm = true) :
    reschedule_cal_event env booking_id ns ne =
      Except.ok (errObj missingInfoMsg,
        [⟨"bookings/" ++ toString booking_id, "GET", [("apiKey", k)], none⟩]) := by
  have hkm : keyMissing (some k) = false := beq_eq_false_iff_ne.mpr hk0
  have h0 : truthy (Json.num 0) = false := rfl
  simp [reschedule_cal_event, _make_cal_request, hk, hkm, keyVal, dictSet,
    hf, hfe, hfb, hbt, hety, hatts, hattsT, ha0, hem, hemT, hnm, hnmT, h0]

/-- Booking whose `eventTypeId` key is present with the integer 0 and whose
attendee data is complete. -/
def bookingZeroId : Json := Json.obj [("eventTypeId", Json.num 0),
  ("attendees", Json.arr [Json.obj [("email", Json.str "a@b.com"), ("name", Json.str "Alice")]]),
  ("title", Json.str "Sync")]

def envC10 : Env := ⟨some "k", fun r =>
  if r.method == "GET" then HttpOutcome.json (Json.obj [("booking", bookingZeroId)])
  else HttpOutcome.requestError "unreachable"⟩

theorem c10_event_type_id_zero_missing_info_witness :
    reschedule_cal_event envC10 42 "2024-06-16T10:00:00Z" "2024-06-16T11:00:00Z" =
      Except.ok (errObj missingInfoMsg,
        [⟨"bookings/" ++ toString (42 : Int), "GET", [("apiKey", "k")], none⟩]) :=
  c10_event_type_id_zero_missing_info envC10 "k" 42
    "2024-06-16T10:00:00Z" "2024-06-16T11:00:00Z"
    (Json.obj [("booking", bookingZeroId)]) bookingZeroId
    (Json.arr [Json.obj [("email", Json.str "a@b.com"), ("name", Json.str "Alice")]])
    (Json.obj [("email", Json.str "a@b.com"), ("name", Json.str "Alice")])
    (Json.str "a@b.com") (Json.str "Alice")
    rfl (by decide) rfl rfl rfl rfl rfl rfl rfl rfl rfl rfl rfl rfl

/-! ## Claim C5: missing credential short-circuits every operation -/

def envC5 : Env := ⟨none, fun _ => HttpOutcome.requestError "unreachable"⟩

/-- C5 counterexample: with the credential absent both operations return an
`{error: ...}` envelope with no network call, but the texts are NOT identical
across operations — `create_cal_event_type` ends "... in environment
variables. Please set CAL_API_KEY in your .env file." while the other six end
"... Please set it in the Streamlit UI.". -/
theorem c5_counterexample :
    list_event_types envC5 = Except.ok (errObj keyNotSetMsg, []) ∧
    create_cal_event_type envC5 "30 Minute Meeting" "30min" 30 "" false =
      Except.ok (errObj keyNotSetEnvMsg, []) ∧
    keyNotSetMsg ≠ keyNotSetEnvMsg :=
  ⟨rfl, rfl, by decide⟩

/-- C5 amended: for every operation, when the credential is absent (unset or
empty) the result is a configuration-error envelope of the same shape
`{error: <text>}` with an empty request trace (no network call attempted);
the text is identical across six operations (`keyNotSetMsg`) but
`create_cal_event_type` uses a different text (`keyNotSetEnvMsg`); both texts
start with "Cal.com API Key is not set". -/
theorem c5_key_missing_all_operations
    (env : Env) (slug s1 s2 : String) (etid : Json) (bs be : String)
    (em nm ti de : Json) (email : Option String) (bid : Int)
    (t2 sl2 : String) (len : Int) (d2 : String) (hid : Bool)
    (hk : keyMissing env.apiKey = true) :
    list_event_types env = Except.ok (errObj keyNotSetMsg, []) ∧
    get_available_slots env slug s1 s2 = Except.ok (errObj keyNotSetMsg, []) ∧
    book_cal_event env etid bs be em nm ti de = Except.ok (errObj keyNotSetMsg, []) ∧
    list_cal_events env email = Except.ok (errObj keyNotSetMsg, []) ∧
    cancel_cal_event env bid = Except.ok (errObj keyNotSetMsg, []) ∧
    reschedule_cal_event env bid bs be = Except.ok (errObj keyNotSetMsg, []) ∧
    create_cal_event_type env t2 sl2 len d2 hid = Except.ok (errObj keyNotSetEnvMsg, []) ∧
    charsStartWith keyNotSetMsg.data ("Cal.com API Key is not set").data = true ∧
    charsStartWith keyNotSetEnvMsg.data ("Cal.com API Key is not set").data = true := by
  refine ⟨?_, ?_, ?_, ?_, ?_, ?_, ?_, by decide, by decide⟩ <;>
    simp [list_event_types, get_available_slots, book_cal_event, list_cal_events,
      cancel_cal_event, reschedule_cal_event, create_cal_event_type, hk]

theorem c5_key_missing_all_operations_witness :
    list_cal_events envC5 none = Except.ok (errObj keyNotSetMsg, []) :=
  (c5_key_missing_all_operations envC5 "30min" "2024-01-01" "2024-01-02"
    (Json.num 1) "2024-06-16T10:00:00Z" "2024-06-16T11:00:00Z"
    (Json.str "a@b.com") (Json.str "Alice") (Json.str "Sync") (Json.str "")
    none 42 "30 Minute Meeting" "30min" 30 "" false rfl).2.2.2.1

/-! ## Claim C6: operations never raise across the boundary — refuted by the
source (`attendee.get("email", "").lower()` with a JSON-null email) -/

def envC6 : Env := ⟨some "k", fun _ =>
  HttpOutcome.json (Json.obj [("bookings", Json.arr
    [Json.obj [("attendees", Json.arr [Json.obj [("email", Json.null)]])]])])⟩

/-- C6 failing input, evaluated: with the credential set and the gateway
returning `{"bookings": [{"attendees": [{"email": null}]}]}`,
`list_cal_events(email="x@y.com")` raises `AttributeError: 'NoneType' object
has no attribute 'lower'` instead of returning an `{error: ...}` envelope —
`attendee.get("email", "")` defaults only when the key is absent, not when
its value is JSON null. -/
theorem c6_null_email_raises :
    list_cal_events envC6 (some "x@y.com") =
      Except.error (PyErr.attributeError
        "\x27NoneType\x27 object has no attribute \x27lower\x27") := rfl

/-! ## Claim C7: malformed dates are rejected before any network call -/

def envC7 : Env := ⟨some "k", fun _ => HttpOutcome.requestError "unreachable"⟩

/-- C7: with the credential present, whenever at least one of the two date
strings fails to parse as `YYYY-MM-DD`, `get_available_slots` returns the
validation-error envelope — whose text names both fields `start_date_str`
and `end_date_str` — and issues no gateway request. -/
theorem c7_invalid_date_validation
    (env : Env) (k : String) (slug s1 s2 : String)
    (hk : env.apiKey = some k) (hk0 : k ≠ "")
    (h : parseYMD s1 = none ∨ parseYMD s2 = none) :
    get_available_slots env slug s1 s2 = Except.ok (errObj invalidDateMsg, []) ∧
    strContains invalidDateMsg "start_date_str" = true ∧
    strContains invalidDateMsg "end_date_str" = true := by
  have hkm : keyMissing (some k) = false := beq_eq_false_iff_ne.mpr hk0
  refine ⟨?_, by decide, by decide⟩
  rcases h with h1 | h1
  · simp [get_available_slots, hk, hkm, h1]
  · cases hp : parseYMD s1 <;> simp [get_available_slots, hk, hkm, h1, hp]

theorem c7_invalid_date_validation_witness :
    get_available_slots envC7 "30min" "bad-date" "2024-01-01" =
      Except.ok (errObj invalidDateMsg, []) :=
  (c7_invalid_date_validation envC7 "k" "30min" "bad-date" "2024-01-01" rfl (by decide)
    (Or.inl rfl)).1

/-! ## Claim C9: the gateway call mutates the caller-supplied params dict -/

def envC9 : Env := ⟨some "k", fun _ => HttpOutcome.noContent⟩

/-- C9 counterexample: `_make_cal_request` executes
`params['apiKey'] = api_key` on the caller's dict, so a supplied
`{"eventType": "30min"}` is `{"eventType": "30min", "apiKey": "k"}` after the
call — caller-visible local state IS mutated, refuting the claim as stated. -/
theorem c9_counterexample :
    (_make_cal_request envC9 "slots" "GET" (some [("eventType", "30min")]) none).2.2 =
      [("eventType", "30min"), ("apiKey", "k")] ∧
    [("eventType", "30min"), ("apiKey", "k")] ≠ [("eventType", "30min")] :=
  ⟨rfl, by decide⟩

/-- C9 amended: the only caller-visible mutation of the supplied
query-parameters dict is the insertion of the credential under `apiKey`
(in place, before the request is issued); when the credential is absent the
function returns before touching the dict, which is then unchanged. -/
theorem c9_params_dict_mutation (env : Env) (endpoint method : String)
    (ps : List (String × String)) (jd : Option Json) :
    (_make_cal_request env endpoint method (some ps) jd).2.2 =
      if keyMissing env.apiKey then ps else dictSet ps "apiKey" (keyVal env.apiKey) := by
  cases h : keyMissing env.apiKey <;> simp [_make_cal_request, h]

/-! ## Claim C8: list_cal_events filters case-insensitively and projects -/

theorem wfAttendee_elim {a : Json} (h : wfAttendee a = true) :
    ∃ fs s, a = Json.obj fs ∧ fs.lookup "email" = some (Json.str s) ∧ s ≠ "" := by
  unfold wfAttendee at h
  split at h
  next fs =>
    split at h
    next s hl => exact ⟨fs, s, rfl, hl, by simpa using h⟩
    next => cases h
  next => cases h

theorem wfBooking_elim {b : Json} (h : wfBooking b = true) :
    ∃ fs as, b = Json.obj fs ∧
      (fs.lookup "attendees").getD (Json.arr []) = Json.arr as ∧
      (∀ a ∈ as, wfAttendee a = true) ∧ asArr (tGet b "attendees") = as := by
  unfold wfBooking at h
  split at h
  next fs =>
    split at h
    next as hl =>
      exact ⟨fs, as, rfl, by rw [hl]; rfl, by simpa [List.all_eq_true] using h,
        by simp [tGet, asArr, hl]⟩
    next hl => exact ⟨fs, [], rfl, by rw [hl]; rfl, by simp, by simp [tGet, asArr, hl]⟩
    next => cases h
  next => cases h

theorem pyGet_obj (fs : List (String × Json)) (key : String) :
    pyGet (Json.obj fs) key = Except.ok (tGet (Json.obj fs) key) := rfl

theorem pyGetD_obj (fs : List (String × Json)) (key : String) (d : Json) :
    pyGetD (Json.obj fs) key d = Except.ok ((fs.lookup key).getD d) := rfl

theorem attendeeMatches_eq (e : String) (atts : List Json)
    (h : ∀ a ∈ atts, wfAttendee a = true) :
    attendeeMatches e atts = Except.ok (atts.any (specAttendeeMatch e)) := by
  induction atts with
  | nil => rfl
  | cons a rest ih =>
    obtain ⟨fs, s, rfl, hl, _⟩ := wfAttendee_elim (h a (by simp))
    have hrest := ih (fun x hx => h x (by simp [hx]))
    cases hc : strLower s == strLower e with
    | true =>
      have hc' : strLower s = strLower e := by simpa using hc
      simp [attendeeMatches, pyGetD, pyLowerJ, hl, specAttendeeMatch, tGet, hc']
    | false =>
      have hc' : ¬ strLower s = strLower e := by simpa using hc
      simp [attendeeMatches, pyGetD, pyLowerJ, hl, specAttendeeMatch, tGet, hc', hrest]

theorem bookingMatches_eq (e : String) (b : Json) (h : wfBooking b = true) :
    bookingMatches e b = Except.ok (specMatches e b) := by
  obtain ⟨fs, as, rfl, hga, hwf, hsp⟩ := wfBooking_elim h
  simp only [bookingMatches, pyGetD, hga, pyBind_ok, pyIter, specMatches, hsp]
  exact attendeeMatches_eq e as hwf

theorem pyFilterM_bookingMatches (e : String) (bs : List Json)
    (h : ∀ b ∈ bs, wfBooking b = true) :
    pyFilterM (bookingMatches e) bs = Except.ok (bs.filter (specMatches e)) := by
  induction bs with
  | nil => rfl
  | cons b rest ih =>
    have hb := bookingMatches_eq e b (h b (by simp))
    have hr := ih (fun x hx => h x (by simp [hx]))
    simp [pyFilterM, hb, hr, List.filter_cons]

theorem pyMapM_email (as : List Json) (h : ∀ a ∈ as, wfAttendee a = true) :
    pyMapM (fun a => pyGet a "email") as = Except.ok (as.map (fun a => tGet a "email")) ∧
    (∀ x ∈ as.map (fun a => tGet a "email"), truthy x = true) := by
  induction as with
  | nil => exact ⟨rfl, by simp⟩
  | cons a rest ih =>
    obtain ⟨fs, s, rfl, hl, hs⟩ := wfAttendee_elim (h a (by simp))
    obtain ⟨h1, h2⟩ := ih (fun x hx => h x (by simp [hx]))
    refine ⟨by simp [pyMapM, pyGet_obj, tGet, hl, h1], ?_⟩
    intro x hx
    simp only [List.map_cons, List.mem_cons] at hx
    rcases hx with hx | hx
    · subst hx; simpa [tGet, hl, truthy] using hs
    · exact h2 x hx

theorem summarizeBooking_eq (b : Json) (h : wfBooking b = true) :
    summarizeBooking b = Except.ok (specSummarize b) := by
  obtain ⟨fs, as, rfl, hga, hwf, hsp⟩ := wfBooking_elim h
  obtain ⟨hm, ht⟩ := pyMapM_email as hwf
  have hfilter : (as.map (fun a => tGet a "email")).filter truthy =
      as.map (fun a => tGet a "email") := List.filter_eq_self.mpr ht
  simp only [summarizeBooking, pyGet_obj, pyGetD_obj, pyBind_ok, hga, pyIter, hm,
    hfilter, specSummarize, hsp]

theorem pyMapM_summarize (bs : List Json) (h : ∀ b ∈ bs, wfBooking b = true) :
    pyMapM summarizeBooking bs = Except.ok (bs.map specSummarize) := by
  induction bs with
  | nil => rfl
  | cons b rest ih =>
    simp [pyMapM, summarizeBooking_eq b (h b (by simp)), ih (fun x hx => h x (by simp [hx]))]

/-- C8 amended: over any gateway response without an `error` key whose
`bookings` entry decodes to a list of well-formed bookings, `list_cal_events`
with a NON-EMPTY email argument returns exactly the bookings having some
attendee whose email equals the argument case-insensitively; with no email —
or the empty string, which the source's `if email:` treats as "no filter" —
it returns all bookings; in both cases each booking is projected to exactly
{id, title, description, startTime, endTime, attendees: [emails]}
(`specSummarize`), and a single GET request is issued. -/
theorem c8_list_cal_events_refines
    (env : Env) (k : String) (email : Option String) (resp : Json) (bookings : List Json)
    (hk : env.apiKey = some k) (hk0 : k ≠ "")
    (hresp : calResponse env ⟨"bookings", "GET", [("apiKey", k)], none⟩ = resp)
    (hne : pyContains resp "error" = Except.ok false)
    (hbs : pyGetD resp "bookings" (Json.arr []) = Except.ok (Json.arr bookings))
    (hwf : ∀ b ∈ bookings, wfBooking b = true) :
    list_cal_events env email = Except.ok
      (Json.obj [("bookings", Json.arr ((specSelect email bookings).map specSummarize))],
       [⟨"bookings", "GET", [("apiKey", k)], none⟩]) := by
  have hkm : keyMissing (some k) = false := beq_eq_false_iff_ne.mpr hk0
  have hall := pyMapM_summarize bookings hwf
  cases email with
  | none =>
    simp [list_cal_events, _make_cal_request, hk, hkm, keyVal, dictSet, hresp, hne, hbs,
      pyIter, specSelect, hall]
  | some e =>
    by_cases he : e = ""
    · subst he
      simp [list_cal_events, _make_cal_request, hk, hkm, keyVal, dictSet, hresp, hne, hbs,
        pyIter, specSelect, hall]
    · have hfil := pyFilterM_bookingMatches e bookings hwf
      have hmap := pyMapM_summarize (bookings.filter (specMatches e))
        (fun b hb => hwf b (List.mem_of_mem_filter hb))
      simp [list_cal_events, _make_cal_request, hk, hkm, keyVal, dictSet, hresp, hne, hbs,
        pyIter, specSelect, he, hfil, hmap]

def bookingC8 : Json := Json.obj [("id", Json.num 7), ("title", Json.str "Standup"),
  ("description", Json.str ""), ("startTime", Json.str "2024-06-16T10:00:00Z"),
  ("endTime", Json.str "2024-06-16T10:15:00Z"),
  ("attendees", Json.arr [Json.obj [("email", Json.str "a@b.com"), ("name", Json.str "Alice")]])]

def envC8 : Env := ⟨some "k", fun _ =>
  HttpOutcome.json (Json.obj [("bookings", Json.arr [bookingC8])])⟩

/-- C8 counterexample: the empty string IS "an email argument", yet the
source's `if email:` skips filtering for it — the call returns the booking
even though no attendee's email equals `""` case-insensitively, so "returns
exactly the bookings having some attendee whose email equals the argument"
fails at `email = ""`. -/
theorem c8_counterexample :
    list_cal_events envC8 (some "") =
      Except.ok (Json.obj [("bookings", Json.arr [specSummarize bookingC8])],
        [⟨"bookings", "GET", [("apiKey", "k")], none⟩]) ∧
    ([bookingC8].filter (specMatches "")).map specSummarize = [] ∧
    Json.arr [specSummarize bookingC8] ≠ Json.arr [] :=
  ⟨rfl, rfl, by simp⟩

def bookingC8b : Json := Json.obj [("id", Json.num 8), ("title", Json.str "Review"),
  ("attendees", Json.arr [Json.obj [("email", Json.str "X@Y.com")]])]

def envC8w : Env := ⟨some "k", fun _ =>
  HttpOutcome.json (Json.obj [("bookings", Json.arr [bookingC8, bookingC8b])])⟩

theorem c8_list_cal_events_refines_witness :
    list_cal_events envC8w (some "x@y.COM") = Except.ok
      (Json.obj [("bookings",
        Json.arr ((specSelect (some "x@y.COM") [bookingC8, bookingC8b]).map specSummarize))],
       [⟨"bookings", "GET", [("apiKey", "k")], none⟩]) :=
  c8_list_cal_events_refines envC8w "k" (some "x@y.COM")
    (Json.obj [("bookings", Json.arr [bookingC8, bookingC8b])]) [bookingC8, bookingC8b]
    rfl (by decide) rfl rfl rfl (by decide)
